import Mathlib

/-!
Verification development for the retrieval-augmented tool-calling loop of the
course-materials RAG chatbot.

The orchestrator `backend/ai_generator.py` is embedded shallowly below:

* Python values produced by `json.loads` become the inductive `Json`;
* the language-model backend (`ollama` client, external to the repository) is a
  parameter `chat : List Message → Except String String`, erroring exactly when
  the backend communication fails;
* `json.loads` (Python standard library, external to the repository) is a
  parameter `loads : String → Option Json`, `none` modelling `JSONDecodeError`;
* exceptions raised inside the orchestrator are modelled with `Except PyError`;
* the regular-expression operations on the fixed pattern
  `<tool_call>(.*?)</tool_call>` (with `re.DOTALL`) are implemented directly:
  `re.search` finds the leftmost occurrence of the opening tag and the lazy
  group ends at the first closing tag after it, and `re.sub` repeatedly removes
  such leftmost-shortest matches, resuming after each match;
* a turn additionally records the list of `execute_tool` invocations it
  performed (`TurnResult.toolCalls`), so that temporal claims about how many
  tool executions happen per turn are stated about the model itself.

The tool registry (`search_tools.ToolManager`), the search-results value
(`vector_store.SearchResults`) and the RAG facade (`rag_system.RAGSystem`) are
not part of the sources available under `src/`; where a claim needs them they
are modelled from the specification and marked `Modelled from the spec:`.
-/

/-- A Python value obtained from `json.loads`: JSON null, booleans, numbers,
strings, arrays (Python lists) and objects (Python dicts, represented as
key-value lists with the keys already deduplicated, as `json.loads` returns
them). -/
inductive Json where
  | null : Json
  | bool : Bool → Json
  | num : Int → Json
  | str : String → Json
  | arr : List Json → Json
  | obj : List (String × Json) → Json

/-- Python truthiness of a `json.loads` value: `None`, `False`, `0`, `""`,
`[]` and `{ }` are falsy, everything else is truthy.  Used to model the
`if tool_call and tool_manager:` test in `generate_response`. -/
def Json.truthy : Json → Bool
  | Json.null => false
  | Json.bool b => b
  | Json.num n => n != 0
  | Json.str s => s != ""
  | Json.arr l => !l.isEmpty
  | Json.obj m => !m.isEmpty

/-- Exceptions the embedded orchestrator can raise: `AttributeError` (calling
`.get` on a non-dict), `TypeError` (`**`-unpacking a non-mapping), and a
backend communication failure raised by the completion client. -/
inductive PyError where
  | attributeError : PyError
  | typeError : PyError
  | backend : String → PyError
deriving DecidableEq

/-- One chat message `{"role": ..., "content": ...}` as sent to the completion
backend. -/
structure Message where
  role : String
  content : String
deriving DecidableEq

/-- `d.get(k, dflt)` on a Python dict coming from `json.loads` (keys are
unique, so the first binding is the binding). -/
def dictGet (kvs : List (String × Json)) (k : String) (dflt : Json) : Json :=
  match List.lookup k kvs with
  | some v => v
  | none => dflt

/-- `v.get(k, dflt)` on an arbitrary Python value: only dicts have `.get`;
every other `json.loads` value raises `AttributeError`. -/
def pyGet (v : Json) (k : String) (dflt : Json) : Except PyError Json :=
  match v with
  | Json.obj kvs => Except.ok (dictGet kvs k dflt)
  | _ => Except.error PyError.attributeError

/-- `f(**v)` argument unpacking: `v` must be a mapping, otherwise Python
raises `TypeError`.  JSON object keys are strings, so string-keyed kwargs
always unpack. -/
def pyKwargs (v : Json) : Except PyError (List (String × Json)) :=
  match v with
  | Json.obj kvs => Except.ok kvs
  | _ => Except.error PyError.typeError

/-- The characters of the opening delimiter `<tool_call>`. -/
def openTag : List Char := "<tool_call>".data

/-- The characters of the closing delimiter `</tool_call>`. -/
def closeTag : List Char := "</tool_call>".data

/-- First-occurrence splitting: `splitFirst needle hay = some (pre, post)`
when `hay = pre ++ needle ++ post` and the occurrence of `needle` starting at
`pre.length` is the leftmost one; `none` when `needle` does not occur.  This
is the primitive both `re.search` and `re.sub` on the tool-call pattern reduce
to. -/
def splitFirst (needle : List Char) : List Char → Option (List Char × List Char)
  | [] => none
  | c :: rest =>
    if needle.isPrefixOf (c :: rest) then
      some ([], (c :: rest).drop needle.length)
    else
      match splitFirst needle rest with
      | some (pre, post) => some (c :: pre, post)
      | none => none

/-- `re.search(r'<tool_call>(.*?)</tool_call>', text, re.DOTALL)`, returning
the captured group: the segment between the first opening tag and the first
closing tag after it.  If the first opening tag has no closing tag after it,
no later opening tag has one either, so there is no match at all. -/
def reSearchGroup (text : List Char) : Option (List Char) :=
  match splitFirst openTag text with
  | none => none
  | some (_, rest) =>
    match splitFirst closeTag rest with
    | none => none
    | some (body, _) => some body

/-- Python `str.strip()` whitespace (the ASCII whitespace characters). -/
def pyIsSpace (c : Char) : Bool :=
  c = ' ' || c = '\t' || c = '\n' || c = '\r' || c = '\x0B' || c = '\x0C'

/-- Python `str.strip()` on a character list: drop leading and trailing
whitespace. -/
def pyStrip (l : List Char) : List Char :=
  ((l.dropWhile pyIsSpace).reverse.dropWhile pyIsSpace).reverse

/-- `AIGenerator._extract_tool_call`: search for the delimited block; if found,
strip its body and parse it with `json.loads`, swallowing `JSONDecodeError`
into `none`; otherwise return `None`. -/
def extract_tool_call (loads : String → Option Json) (text : String) : Option Json :=
  match reSearchGroup text.data with
  | none => none
  | some body => loads (String.mk (pyStrip body))

/-- One pass structure of `re.sub(r'<tool_call>.*?</tool_call>', '', text,
flags=re.DOTALL)`: remove the leftmost-shortest match and continue after it.
The fuel argument bounds the number of removed matches; each removal strictly
shortens the text by the two tag lengths, so `text.length` fuel is always
sufficient (see `removeBlocks`). -/
def removeBlocksF : Nat → List Char → List Char
  | 0, text => text
  | fuel + 1, text =>
    match splitFirst openTag text with
    | none => text
    | some (pre, rest) =>
      match splitFirst closeTag rest with
      | none => text
      | some (_, post) => pre ++ removeBlocksF fuel post

/-- `re.sub(r'<tool_call>.*?</tool_call>', '', text, flags=re.DOTALL)`. -/
def removeBlocks (text : List Char) : List Char :=
  removeBlocksF text.length text

/-- `AIGenerator._clean_response`: remove every tool-call block, then
`strip()` the result. -/
def clean_response (text : String) : String :=
  String.mk (pyStrip (removeBlocks text.data))

/-- Modelled from the spec: `search_tools.ToolManager` is not under `src/`
(only its tests and callers are).  Per §4.3 the registry holds tools keyed by
name. -/
structure ToolManager where
  tools : List (String × (List (String × Json) → String))

/-- Modelled from the spec: `search_tools.ToolManager.execute_tool` is not
under `src/`.  Per §4.3 it dispatches to the named tool and returns a fixed
"tool '<name>' not found" message (not a failure) for unregistered names.  A
non-string name (possible because the orchestrator passes the parsed JSON
value through) matches no registered tool; its rendering inside the message is
simplified, since no turn considered here exercises it. -/
def ToolManager.execute_tool (tm : ToolManager) (name : Json)
    (kwargs : List (String × Json)) : String :=
  match name with
  | Json.str s =>
    match List.lookup s tm.tools with
    | some f => f kwargs
    | none => "Tool \x27" ++ s ++ "\x27 not found"
  | _ => "Tool \x27\x27 not found"

/-- `AIGenerator.SYSTEM_PROMPT` (verbatim; braces written with escapes). -/
def SYSTEM_PROMPT : String :=
  "You are an AI assistant specialized in course materials and educational content with access to search tools for course information.\n\n## Available Tools\nYou have access to TWO tools:\n\n1. **search_course_content**: Search course materials for specific information or content\n   - Use for: questions about specific topics, concepts, or detailed content within courses\n   - Arguments: query (required), course_name (optional), lesson_number (optional)\n\n2. **get_course_outline**: Get the complete structure/syllabus of a course\n   - Use for: questions about course structure, lesson lists, what a course covers, syllabus\n   - Arguments: course_title (required)\n\n## When to Use Each Tool\n- Use **get_course_outline** for: \"What lessons are in X course?\", \"Show me the outline of X\", \"What does X course cover?\", \"List the topics in X\"\n- Use **search_course_content** for: \"What is X?\", \"How do I do X?\", \"Explain X from course Y\"\n- For general knowledge questions, answer directly without searching\n- Maximum ONE tool call per query\n\n## How to Use Tools\nWhen you need to use a tool, output EXACTLY this format (no extra text before it):\n<tool_call>\x7b\"name\": \"tool_name\", \"arguments\": \x7b...\x7d\x7d</tool_call>\n\nExamples:\n<tool_call>\x7b\"name\": \"get_course_outline\", \"arguments\": \x7b\"course_title\": \"MCP\"\x7d\x7d</tool_call>\n<tool_call>\x7b\"name\": \"search_course_content\", \"arguments\": \x7b\"query\": \"API endpoints\", \"course_name\": \"MCP\"\x7d\x7d</tool_call>\n\n## Response Guidelines\n- Be brief and concise - get to the point quickly\n- Provide direct answers only - no meta-commentary about searching\n- Do not mention \"based on the search results\"\n- When presenting a course outline, include the course title, course link, and all lessons with their numbers and titles\n- Include relevant examples when they aid understanding\n"

/-- The two-message turn `generate_response` sends to the first completion:
the system prompt (with the prior conversation appended when the history
string is truthy, i.e. present and nonempty) and the user question. -/
def initMessages (query : String) (conversation_history : Option String) : List Message :=
  [Message.mk "system"
     (match conversation_history with
      | some h =>
        if h = "" then SYSTEM_PROMPT
        else SYSTEM_PROMPT ++ "\n\nPrevious conversation:\n" ++ h
      | none => SYSTEM_PROMPT),
   Message.mk "user" query]

/-- The synthetic user turn built in `_handle_tool_execution` around the
tool's string result. -/
def toolResultContent (tool_result : String) : String :=
  "Tool result:\n" ++ tool_result ++
    "\n\nNow provide your final answer based on these search results. Be concise and do not mention that you searched."

/-- Result of one orchestrated turn: the returned text or raised exception,
together with the trace of `execute_tool` invocations (name and kwargs, in
order) the turn performed. -/
structure TurnResult where
  outcome : Except PyError String
  toolCalls : List (Json × List (String × Json))

/-- `AIGenerator._handle_tool_execution`.  The second component of the pair is
the final contents of the caller-owned `messages` list: the source builds
`messages_with_result = messages.copy()` and appends only to the copy, so the
caller's list is returned unchanged. -/
def handle_tool_execution (chat : List Message → Except String String)
    (tool_call : Json) (initial_response : String) (messages : List Message)
    (tool_manager : ToolManager) : TurnResult × List Message :=
  (match pyGet tool_call "name" (Json.str "") with
   | Except.error e => TurnResult.mk (Except.error e) []
   | Except.ok tool_name =>
     match pyGet tool_call "arguments" (Json.obj []) with
     | Except.error e => TurnResult.mk (Except.error e) []
     | Except.ok argsVal =>
       match pyKwargs argsVal with
       | Except.error e => TurnResult.mk (Except.error e) []
       | Except.ok tool_args =>
         match chat (messages ++
             [Message.mk "assistant" initial_response,
              Message.mk "user"
                (toolResultContent (tool_manager.execute_tool tool_name tool_args))]) with
         | Except.error e =>
           TurnResult.mk (Except.error (PyError.backend e)) [(tool_name, tool_args)]
         | Except.ok finalText =>
           TurnResult.mk (Except.ok (clean_response finalText)) [(tool_name, tool_args)],
   messages)

/-- `AIGenerator.generate_response`: build the two-message turn, request the
first completion, detect a tool call, and either execute it (when one was
detected, it is truthy, and a tool manager was supplied) or return the cleaned
first completion.  The unused `tools` parameter of the source is kept. -/
def generate_response (chat : List Message → Except String String)
    (loads : String → Option Json) (query : String)
    (conversation_history : Option String) (tools : Option (List Json))
    (tool_manager : Option ToolManager) : TurnResult :=
  match chat (initMessages query conversation_history) with
  | Except.error e => TurnResult.mk (Except.error (PyError.backend e)) []
  | Except.ok response_text =>
    match extract_tool_call loads response_text, tool_manager with
    | some tc, some tm =>
      if tc.truthy then
        (handle_tool_execution chat tc response_text
          (initMessages query conversation_history) tm).1
      else TurnResult.mk (Except.ok (clean_response response_text)) []
    | _, _ => TurnResult.mk (Except.ok (clean_response response_text)) []

/-- A detected invocation is safe to dispatch: when truthy it must be a JSON
object whose `arguments` member (defaulting to the empty object) is itself an
object, else the orchestrator raises before reaching the registry. -/
def safeInvocation : Json → Bool
  | Json.obj kvs =>
    match dictGet kvs "arguments" (Json.obj []) with
    | Json.obj _ => true
    | _ => false
  | _ => false

/-- The first completion text only carries safe invocations: whatever
`_extract_tool_call` detects is either falsy (and skipped) or safe to
dispatch. -/
def detectedSafe (loads : String → Option Json) (text : String) : Bool :=
  match extract_tool_call loads text with
  | none => true
  | some tc => !tc.truthy || safeInvocation tc

/-- A segmented text: the interleaving `seg₁ ++ <tool_call> ++ body₁ ++
</tool_call> ++ ... ++ last` of well-formed invocation blocks with the
surrounding non-block segments. -/
def assemble : List (List Char × List Char) → List Char → List Char
  | [], last => last
  | (s, b) :: rest, last => s ++ openTag ++ b ++ closeTag ++ assemble rest last

/-- The concatenation of the non-block segments of a segmented text. -/
def concatSegs : List (List Char × List Char) → List Char → List Char
  | [], last => last
  | (s, _) :: rest, last => s ++ concatSegs rest last

/-- Modelled from the spec: §3 source record `{title: string, lesson_link:
optional string}` — the provenance entry the capability tools record per
retrieved chunk (`search_tools.py` is not under `src/`). -/
structure SourceRecord where
  title : String
  link : Option String

/-- Modelled from the spec: `vector_store.SearchResults` is not under `src/`
(only its tests are).  Per §3 it carries ranked documents, same-length
metadata and distances, and an optional error message (defaulting to none, as
in the dataclass the tests construct). -/
structure SearchResults where
  documents : List String
  metadata : List (List (String × Json))
  distances : List Rat
  error : Option String := none

/-- `SearchResults.is_empty()`: a results value is empty iff `documents` is
empty. -/
def SearchResults.is_empty (r : SearchResults) : Bool :=
  r.documents.isEmpty

/-- `SearchResults.empty(error_msg)`: the error-carrying constructor — all
three sequences empty and `error` set to the message. -/
def SearchResults.empty (error_msg : String) : SearchResults :=
  SearchResults.mk [] [] [] (some error_msg)

/-- Modelled from the spec: the non-error constructor builds the three
sequences from the backend's ranked hits, one document, one metadata mapping
and one distance per hit, so the three sequences are parallel by
construction. -/
def SearchResults.from_chroma (rows : List (String × List (String × Json) × Rat)) :
    SearchResults :=
  SearchResults.mk (rows.map (fun r => r.1)) (rows.map (fun r => r.2.1))
    (rows.map (fun r => r.2.2)) none

/-- The §3 invariant on a results value: equal lengths unless `error` is set,
in which case all three sequences are empty. -/
def SearchResults.wf (r : SearchResults) : Bool :=
  match r.error with
  | none => r.documents.length == r.metadata.length && r.metadata.length == r.distances.length
  | some _ => r.documents.isEmpty && r.metadata.isEmpty && r.distances.isEmpty

/-- `app.py` `QueryRequest`: query, optional session id, optional model. -/
structure QueryRequest where
  query : String
  session_id : Option String
  model : Option String

/-- `app.py` `QueryResponse`: the transport-facing response schema.  Note that
`sources` is declared `List[str]` — plain strings, not structured records. -/
structure QueryResponse where
  answer : String
  sources : List String
  session_id : String
  response_time : Rat

/-- `app.py` `query_documents`: create a session when the request carries none
(Python truthiness: an empty session id also counts as absent), delegate to
`rag_system.query`, and wrap the answer and sources into the declared response
schema.  The externally measured elapsed time is a parameter; its rounding is
elided. -/
def query_documents (rag_query : String → String → Option String → String × List String)
    (new_session : String) (elapsed : Rat) (req : QueryRequest) : QueryResponse :=
  let sid := match req.session_id with
    | none => new_session
    | some s => if s = "" then new_session else s
  let r := rag_query req.query sid req.model
  QueryResponse.mk r.1 r.2 sid elapsed

/-! ### Concrete fixtures for witness runs -/

/-- A sample `json.loads` fragment for concrete runs: it parses the block
bodies exercised by the concrete turns below exactly as Python does, and
reports a decode failure on everything else. -/
def loadsSample : String → Option Json := fun s =>
  if s = "\x7b\x7d" then some (Json.obj [])
  else if s = "[1]" then some (Json.arr [Json.num 1])
  else if s = "\x7b\"name\": \"search_course_content\", \"arguments\": \x7b\"query\": \"API\"\x7d\x7d" then
    some (Json.obj [("name", Json.str "search_course_content"),
                    ("arguments", Json.obj [("query", Json.str "API")])])
  else if s = "\x7b\"arguments\": \x7b\x7d\x7d" then
    some (Json.obj [("arguments", Json.obj [])])
  else none

/-- A backend that always answers with the same completion text. -/
def chatSample (reply : String) : List Message → Except String String :=
  fun _ => Except.ok reply

/-- A backend that answers the two-message first request with `firstReply` and
any longer (second) request with `second`. -/
def chatTwoPhase (firstReply : String) (second : Except String String) :
    List Message → Except String String :=
  fun msgs => if msgs.length ≤ 2 then Except.ok firstReply else second

/-- A backend whose communication fails with message `e`. -/
def chatFail (e : String) : List Message → Except String String :=
  fun _ => Except.error e

/-- A one-tool registry for concrete runs. -/
def tmSample : ToolManager :=
  ToolManager.mk [("search_course_content", fun _ => "[Course] Python content.")]

/-- A first completion carrying a well-formed invocation of the search
capability. -/
def toolCallReply : String :=
  "<tool_call>\x7b\"name\": \"search_course_content\", \"arguments\": \x7b\"query\": \"API\"\x7d\x7d</tool_call>"

/-- A first completion whose delimited block holds malformed JSON. -/
def badJsonReply : String := "Searching now.\n<tool_call>\x7bbad\x7d</tool_call>"

/-- A first completion whose block parses to an object lacking the `name`
key. -/
def missingNameReply : String := "<tool_call>\x7b\"arguments\": \x7b\x7d\x7d</tool_call>"

/-! ### First-occurrence splitting -/

/-- Soundness of `splitFirst`: a successful split is a decomposition of the
haystack around the needle. -/
theorem splitFirst_append (needle : List Char) :
    ∀ (hay pre post : List Char), splitFirst needle hay = some (pre, post) →
      hay = pre ++ needle ++ post := by
  intro hay
  induction hay with
  | nil => intro pre post h; simp [splitFirst] at h
  | cons c rest ih =>
    intro pre post h
    simp only [splitFirst] at h
    split at h
    · next hpre =>
      obtain ⟨t, ht⟩ := ( List.isPrefixOf_iff_prefix).mp hpre
      simp only [Option.some.injEq, Prod.mk.injEq] at h
      obtain ⟨h1, h2⟩ := h
      subst h1
      subst h2
      have hdrop : (c :: rest).drop needle.length = t := by
        rw [← ht, List.drop_left]
      rw [hdrop, List.nil_append, ht]
    · next =>
      cases hx : splitFirst needle rest with
      | none => rw [hx] at h; exact absurd h (by simp)
      | some pr =>
        obtain ⟨a, b⟩ := pr
        rw [hx] at h
        simp only [Option.some.injEq, Prod.mk.injEq] at h
        obtain ⟨h1, h2⟩ := h
        subst h1
        subst h2
        rw [ih a b hx]
        simp

/-- A needle that occurs in the haystack is found by `splitFirst`. -/
theorem splitFirst_isSome_of_infix (needle : List Char) :
    ∀ hay : List Char, needle ≠ [] → needle <:+: hay →
      (splitFirst needle hay).isSome = true := by
  intro hay
  induction hay with
  | nil =>
    intro hne h
    obtain ⟨u, v, huv⟩ := h
    simp only [List.append_eq_nil] at huv
    exact absurd huv.1.2 hne
  | cons c rest ih =>
    intro hne h
    simp only [splitFirst]
    split
    · simp
    · next hnp =>
      obtain ⟨u, v, huv⟩ := h
      cases u with
      | nil =>
        exact absurd (( List.isPrefixOf_iff_prefix).mpr ⟨v, by simpa using huv⟩) hnp
      | cons d u' =>
        have hrest : needle <:+: rest := by
          refine ⟨u', v, ?_⟩
          have hcons : d :: (u' ++ needle ++ v) = c :: rest := by simpa using huv
          injection hcons with _ h2
        cases hx : splitFirst needle rest with
        | none =>
          exfalso
          have hs := ih hne hrest
          rw [hx] at hs
          simp at hs
        | some pr =>
          obtain ⟨a, b⟩ := pr
          simp

/-- A pattern whose first character does not recur cannot span the boundary of
`s ++ pattern.dropLast`: if it does not occur in `s`, it does not occur in
`s ++ pattern.dropLast` either.  This is what makes the two tool-call tags
(whose only `<` is their first character) behave well under concatenation. -/
theorem not_infix_append_dropLast (c : Char) (rest : List Char) (hc : c ∉ rest)
    (s : List Char) (hs : ¬ (c :: rest) <:+: s) :
    ¬ (c :: rest) <:+: (s ++ (c :: rest).dropLast) := by
  intro hinf
  obtain ⟨u, v, huv⟩ := hinf
  cases rest with
  | nil =>
    exact hs ⟨u, v, by simpa using huv⟩
  | cons r0 rt =>
    have hlen : u.length + (rt.length + 2) + v.length = s.length + (rt.length + 1) := by
      have hl := congrArg List.length huv
      simp only [List.length_append, List.length_dropLast, List.length_cons] at hl
      omega
    by_cases hcase : u.length + (rt.length + 2) ≤ s.length
    · -- the occurrence lies inside `s`
      apply hs
      have huv2 : (u ++ (c :: r0 :: rt)) ++ v = s ++ (c :: r0 :: rt).dropLast := by
        simpa [List.append_assoc] using huv
      have htake : ((u ++ (c :: r0 :: rt)) ++ v).take (u.length + (rt.length + 2)) =
          u ++ (c :: r0 :: rt) := by
        have ht := List.take_left (u ++ (c :: r0 :: rt)) v
        simpa [List.length_append] using ht
      have htake2 : (s ++ (c :: r0 :: rt).dropLast).take (u.length + (rt.length + 2)) =
          s.take (u.length + (rt.length + 2)) :=
        List.take_append_of_le_length hcase
      have hup : u ++ (c :: r0 :: rt) = s.take (u.length + (rt.length + 2)) := by
        rw [← htake, huv2, htake2]
      have hpre : u ++ (c :: r0 :: rt) <+: s := by
        rw [hup]; exact List.take_prefix _ s
      obtain ⟨w, hw⟩ := hpre
      exact ⟨u, w, by simpa [List.append_assoc] using hw⟩
    · -- the occurrence would span the boundary: its character at global index
      -- `s.length` is the head `c`, but that position is at offset ≥ 1 inside
      -- the pattern, and `c` occurs only at offset 0
      push_neg at hcase
      have hassoc : u ++ ((c :: r0 :: rt) ++ v) = s ++ (c :: r0 :: rt).dropLast := by
        simpa [List.append_assoc] using huv
      have hul : u.length ≤ s.length := by omega
      obtain ⟨k, hk⟩ : ∃ k, s.length - u.length = k + 1 :=
        ⟨s.length - u.length - 1, by omega⟩
      have hg : (u ++ ((c :: r0 :: rt) ++ v))[s.length]? =
          (s ++ (c :: r0 :: rt).dropLast)[s.length]? := by rw [hassoc]
      have hlhs : (u ++ ((c :: r0 :: rt) ++ v))[s.length]? = ((r0 :: rt) ++ v)[k]? := by
        rw [List.getElem?_append_right hul, hk]
        simp
      have hrhs : (s ++ (c :: r0 :: rt).dropLast)[s.length]? = some c := by
        rw [List.getElem?_append_right (Nat.le_refl s.length)]
        simp
      have hmem : ((r0 :: rt) ++ v)[k]? = some c := by rw [← hlhs, hg, hrhs]
      have hkb : k < (r0 :: rt).length := by simp only [List.length_cons]; omega
      have hsplitk : ((r0 :: rt) ++ v)[k]? = (r0 :: rt)[k]? :=
        List.getElem?_append_left hkb
      exact hc (List.getElem?_mem (by rw [← hsplitk]; exact hmem))

/-- Unfolding `splitFirst` when the needle is a prefix of the haystack. -/
theorem splitFirst_cons_pos (needle : List Char) (c : Char) (rest : List Char)
    (h : needle.isPrefixOf (c :: rest) = true) :
    splitFirst needle (c :: rest) = some ([], (c :: rest).drop needle.length) := by
  unfold splitFirst
  rw [if_pos h]

/-- Unfolding `splitFirst` when the needle is not a prefix of the haystack. -/
theorem splitFirst_cons_neg (needle : List Char) (c : Char) (rest : List Char)
    (h : needle.isPrefixOf (c :: rest) = false) :
    splitFirst needle (c :: rest) =
      match splitFirst needle rest with
      | some (pre, post) => some (c :: pre, post)
      | none => none := by
  conv_lhs => unfold splitFirst
  rw [if_neg (show ¬ needle.isPrefixOf (c :: rest) = true by simp [h])]

/-- When the needle does not occur in `s ++ needle.dropLast`, the occurrence
of the needle in `s ++ needle ++ t` starting at `s.length` is the leftmost
one, so `splitFirst` returns exactly that decomposition. -/
theorem splitFirst_boundary (needle : List Char) (hne : needle ≠ []) :
    ∀ (s t : List Char), ¬ needle <:+: (s ++ needle.dropLast) →
      splitFirst needle (s ++ needle ++ t) = some (s, t) := by
  intro s
  induction s with
  | nil =>
    intro t _
    obtain ⟨n0, nt, hn⟩ : ∃ n0 nt, needle = n0 :: nt := by
      cases needle with
      | nil => exact absurd rfl hne
      | cons a b => exact ⟨a, b, rfl⟩
    subst hn
    have hcons : [] ++ (n0 :: nt) ++ t = n0 :: (nt ++ t) := by simp
    rw [hcons]
    have hpre : (n0 :: nt).isPrefixOf (n0 :: (nt ++ t)) = true :=
      ( List.isPrefixOf_iff_prefix).mpr ⟨t, by simp⟩
    rw [splitFirst_cons_pos _ _ _ hpre]
    have hdrop : (n0 :: (nt ++ t)).drop (n0 :: nt).length = t := by
      have hx : (n0 :: nt) ++ t = n0 :: (nt ++ t) := by simp
      rw [← hx, List.drop_left]
    rw [hdrop]
  | cons a s' ih =>
    intro t hfree
    have hfree2 : ¬ needle <:+: (s' ++ needle.dropLast) := by
      intro hx
      obtain ⟨u, v, huv⟩ := hx
      exact hfree ⟨a :: u, v, by simp [huv]⟩
    have hnp : needle.isPrefixOf (a :: (s' ++ needle ++ t)) = false := by
      cases hb : needle.isPrefixOf (a :: (s' ++ needle ++ t)) with
      | false => rfl
      | true =>
        exfalso
        apply hfree
        have hp : needle <+: a :: (s' ++ needle ++ t) :=
          ( List.isPrefixOf_iff_prefix).mp hb
        obtain ⟨lc, hlast⟩ : ∃ lc, needle.dropLast ++ [lc] = needle :=
          ⟨needle.getLast hne, List.dropLast_append_getLast hne⟩
        have hone : 1 ≤ needle.length := List.length_pos.mpr hne
        have hsplitup : a :: (s' ++ needle ++ t) =
            ((a :: s') ++ needle.dropLast) ++ ([lc] ++ t) := by
          conv_lhs => rw [← hlast]
          simp [List.append_assoc]
        have hlenle : needle.length ≤ ((a :: s') ++ needle.dropLast).length := by
          simp only [List.length_append, List.length_cons, List.length_dropLast]
          omega
        have htk := ( List.prefix_iff_eq_take).mp hp
        rw [hsplitup, List.take_append_of_le_length hlenle] at htk
        have hpre2 : needle <+: ((a :: s') ++ needle.dropLast) := by
          nth_rewrite 1 [htk]
          exact List.take_prefix _ _
        obtain ⟨w, hw⟩ := hpre2
        exact ⟨[], w, by simpa using hw⟩
    have hcons : (a :: s') ++ needle ++ t = a :: (s' ++ needle ++ t) := by simp
    rw [hcons, splitFirst_cons_neg _ _ _ hnp, ih t hfree2]

/-- The opening tag cannot span the boundary of `s ++ openTag.dropLast`. -/
theorem not_openTag_infix_append (s : List Char) (hs : ¬ openTag <:+: s) :
    ¬ openTag <:+: (s ++ openTag.dropLast) := by
  have h1 : openTag = '<' :: "tool_call>".data := rfl
  rw [h1] at hs ⊢
  exact not_infix_append_dropLast '<' "tool_call>".data (by decide) s hs

/-- The closing tag cannot span the boundary of `s ++ closeTag.dropLast`. -/
theorem not_closeTag_infix_append (s : List Char) (hs : ¬ closeTag <:+: s) :
    ¬ closeTag <:+: (s ++ closeTag.dropLast) := by
  have h1 : closeTag = '<' :: "/tool_call>".data := rfl
  rw [h1] at hs ⊢
  exact not_infix_append_dropLast '<' "/tool_call>".data (by decide) s hs

/-- In `s ++ openTag ++ t` with `s` free of the opening tag, the leftmost
opening tag is the explicit one. -/
theorem splitFirst_openTag (s t : List Char) (hs : ¬ openTag <:+: s) :
    splitFirst openTag (s ++ openTag ++ t) = some (s, t) :=
  splitFirst_boundary openTag (by decide) s t (not_openTag_infix_append s hs)

/-- In `s ++ closeTag ++ t` with `s` free of the closing tag, the leftmost
closing tag is the explicit one. -/
theorem splitFirst_closeTag (s t : List Char) (hs : ¬ closeTag <:+: s) :
    splitFirst closeTag (s ++ closeTag ++ t) = some (s, t) :=
  splitFirst_boundary closeTag (by decide) s t (not_closeTag_infix_append s hs)

/-- `removeBlocksF` is the identity on text without an opening tag. -/
theorem removeBlocksF_no_openTag (fuel : Nat) (text : List Char)
    (h : ¬ openTag <:+: text) : removeBlocksF fuel text = text := by
  cases fuel with
  | zero => rfl
  | succ f =>
    cases hx : splitFirst openTag text with
    | none => unfold removeBlocksF; rw [hx]
    | some pr =>
      exfalso
      obtain ⟨pre, post⟩ := pr
      exact h ⟨pre, post, (splitFirst_append openTag text pre post hx).symm⟩

/-- `assemble` produces at least as many characters as it has blocks, so
`(assemble ps last).length` is always sufficient fuel. -/
theorem assemble_length_ge (ps : List (List Char × List Char)) :
    ∀ last : List Char, ps.length ≤ (assemble ps last).length := by
  induction ps with
  | nil => intro last; simp [assemble]
  | cons hd rest ih =>
    intro last
    obtain ⟨s, b⟩ := hd
    have h11 : openTag.length = 11 := rfl
    have h12 : closeTag.length = 12 := rfl
    have := ih last
    simp only [assemble, List.length_append, List.length_cons, h11, h12]
    omega

/-- Core `re.sub` characterization: on a text assembled from tool-call blocks
interleaved with segments free of the opening tag (with bodies free of the
closing tag), removing all blocks yields exactly the concatenation of the
segments. -/
theorem removeBlocksF_assemble (ps : List (List Char × List Char)) :
    ∀ (last : List Char) (fuel : Nat), ps.length ≤ fuel →
      (∀ pr ∈ ps, ¬ openTag <:+: pr.1) →
      (∀ pr ∈ ps, ¬ closeTag <:+: pr.2) →
      ¬ openTag <:+: last →
      removeBlocksF fuel (assemble ps last) = concatSegs ps last := by
  induction ps with
  | nil =>
    intro last fuel _ _ _ hlast
    show removeBlocksF fuel last = last
    exact removeBlocksF_no_openTag fuel last hlast
  | cons hd rest ih =>
    obtain ⟨s, b⟩ := hd
    intro last fuel hfuel hseg hbody hlast
    obtain ⟨f, rfl⟩ : ∃ f, fuel = f + 1 := by
      cases fuel with
      | zero => simp at hfuel
      | succ f => exact ⟨f, rfl⟩
    have hs : ¬ openTag <:+: s := hseg (s, b) (by simp)
    have hb : ¬ closeTag <:+: b := hbody (s, b) (by simp)
    have hshape : assemble ((s, b) :: rest) last =
        s ++ openTag ++ (b ++ closeTag ++ assemble rest last) := by
      simp [assemble, List.append_assoc]
    have h1 : splitFirst openTag (assemble ((s, b) :: rest) last) =
        some (s, b ++ closeTag ++ assemble rest last) := by
      rw [hshape]
      exact splitFirst_openTag _ _ hs
    have h2 : splitFirst closeTag (b ++ closeTag ++ assemble rest last) =
        some (b, assemble rest last) :=
      splitFirst_closeTag _ _ hb
    have hstep : removeBlocksF (f + 1) (assemble ((s, b) :: rest) last) =
        s ++ removeBlocksF f (assemble rest last) := by
      conv_lhs => unfold removeBlocksF
      simp only [h1, h2]
    rw [hstep,
      ih last f (by simp at hfuel; omega)
        (fun pr hpr => hseg pr (List.mem_cons_of_mem _ hpr))
        (fun pr hpr => hbody pr (List.mem_cons_of_mem _ hpr)) hlast]
    rfl

/-- `removeBlocks` on a segmented text is the concatenation of the
segments. -/
theorem removeBlocks_assemble (ps : List (List Char × List Char)) (last : List Char)
    (hseg : ∀ pr ∈ ps, ¬ openTag <:+: pr.1)
    (hbody : ∀ pr ∈ ps, ¬ closeTag <:+: pr.2)
    (hlast : ¬ openTag <:+: last) :
    removeBlocks (assemble ps last) = concatSegs ps last :=
  removeBlocksF_assemble ps last (assemble ps last).length
    (assemble_length_ge ps last) hseg hbody hlast

/-- `str.strip()` returns an infix of its input. -/
theorem pyStrip_within (l : List Char) : pyStrip l <:+: l := by
  obtain ⟨w2, hw2⟩ := List.dropWhile_suffix (l := l) pyIsSpace
  obtain ⟨w, hw⟩ := List.dropWhile_suffix (l := (l.dropWhile pyIsSpace).reverse) pyIsSpace
  refine ⟨w2, w.reverse, ?_⟩
  have hx := congrArg List.reverse hw
  simp only [List.reverse_append, List.reverse_reverse] at hx
  show w2 ++ pyStrip l ++ w.reverse = l
  unfold pyStrip
  rw [List.append_assoc, hx, hw2]

/-- A pattern absent from a text is absent from its stripped form. -/
theorem not_infix_pyStrip (n l : List Char) (h : ¬ n <:+: l) : ¬ n <:+: pyStrip l :=
  fun hx => h (hx.trans (pyStrip_within l))

/-! ### Branch characterizations of `generate_response` -/

/-- A nonempty parsed JSON object is truthy. -/
theorem truthy_obj (kvs : List (String × Json)) (h : kvs ≠ []) :
    (Json.obj kvs).truthy = true := by
  simp [Json.truthy, List.isEmpty_iff, h]

/-- A failing first completion request surfaces as a backend failure with no
tool execution. -/
theorem generate_response_first_error (chat : List Message → Except String String)
    (loads : String → Option Json) (q : String) (hist : Option String)
    (tools : Option (List Json)) (tmgr : Option ToolManager) (e : String)
    (h : chat (initMessages q hist) = Except.error e) :
    generate_response chat loads q hist tools tmgr =
      TurnResult.mk (Except.error (PyError.backend e)) [] := by
  unfold generate_response
  simp only [h]

/-- When no invocation is detected, the turn answers with the cleaned first
completion and executes nothing. -/
theorem generate_response_no_detect (chat : List Message → Except String String)
    (loads : String → Option Json) (q : String) (hist : Option String)
    (tools : Option (List Json)) (tmgr : Option ToolManager) (text : String)
    (hfirst : chat (initMessages q hist) = Except.ok text)
    (hnone : extract_tool_call loads text = none) :
    generate_response chat loads q hist tools tmgr =
      TurnResult.mk (Except.ok (clean_response text)) [] := by
  unfold generate_response
  simp only [hfirst, hnone]

/-- Without a tool manager, the turn answers with the cleaned first completion
and executes nothing, whatever was detected. -/
theorem generate_response_no_manager (chat : List Message → Except String String)
    (loads : String → Option Json) (q : String) (hist : Option String)
    (tools : Option (List Json)) (text : String)
    (hfirst : chat (initMessages q hist) = Except.ok text) :
    generate_response chat loads q hist tools none =
      TurnResult.mk (Except.ok (clean_response text)) [] := by
  unfold generate_response
  simp only [hfirst]
  cases extract_tool_call loads text <;> rfl

/-- A falsy detected value (JSON null, false, 0, "", [] or the empty object)
is skipped: the turn answers with the cleaned first completion. -/
theorem generate_response_falsy (chat : List Message → Except String String)
    (loads : String → Option Json) (q : String) (hist : Option String)
    (tools : Option (List Json)) (tmgr : Option ToolManager) (text : String)
    (tc : Json) (hfirst : chat (initMessages q hist) = Except.ok text)
    (hext : extract_tool_call loads text = some tc)
    (hf : tc.truthy = false) :
    generate_response chat loads q hist tools tmgr =
      TurnResult.mk (Except.ok (clean_response text)) [] := by
  unfold generate_response
  simp only [hfirst, hext]
  cases tmgr with
  | none => rfl
  | some tm => simp [hf]

/-- Full characterization of the tool path: with a truthy object invocation
whose `arguments` member is an object, the turn executes exactly that
invocation and answers with the cleaned second completion, whose request is
the first request's two messages followed by the assistant turn and the
synthetic user turn around the tool result. -/
theorem generate_response_tool_path (chat : List Message → Except String String)
    (loads : String → Option Json) (q : String) (hist : Option String)
    (tools : Option (List Json)) (tm : ToolManager) (text : String)
    (kvs akvs : List (String × Json))
    (hfirst : chat (initMessages q hist) = Except.ok text)
    (hext : extract_tool_call loads text = some (Json.obj kvs))
    (hne : kvs ≠ [])
    (hargs : dictGet kvs "arguments" (Json.obj []) = Json.obj akvs) :
    generate_response chat loads q hist tools (some tm) =
      TurnResult.mk
        (match chat (initMessages q hist ++
            [Message.mk "assistant" text,
             Message.mk "user" (toolResultContent
               (tm.execute_tool (dictGet kvs "name" (Json.str "")) akvs))]) with
         | Except.error e => Except.error (PyError.backend e)
         | Except.ok finalText => Except.ok (clean_response finalText))
        [(dictGet kvs "name" (Json.str ""), akvs)] := by
  unfold generate_response
  simp only [hfirst, hext]
  rw [if_pos (truthy_obj kvs hne)]
  unfold handle_tool_execution
  simp only [pyGet, pyKwargs, hargs]
  cases hx : chat (initMessages q hist ++
      [Message.mk "assistant" text,
       Message.mk "user" (toolResultContent
         (tm.execute_tool (dictGet kvs "name" (Json.str "")) akvs))]) <;>
    simp [hx]

/-- A truthy detected value that is not a JSON object raises `AttributeError`
at `tool_call.get("name", "")`, before any tool executes. -/
theorem generate_response_nonobj_invocation (chat : List Message → Except String String)
    (loads : String → Option Json) (q : String) (hist : Option String)
    (tools : Option (List Json)) (tm : ToolManager) (text : String) (tc : Json)
    (hfirst : chat (initMessages q hist) = Except.ok text)
    (hext : extract_tool_call loads text = some tc)
    (ht : tc.truthy = true)
    (hno : ∀ kvs, tc ≠ Json.obj kvs) :
    generate_response chat loads q hist tools (some tm) =
      TurnResult.mk (Except.error PyError.attributeError) [] := by
  unfold generate_response
  simp only [hfirst, hext]
  rw [if_pos ht]
  unfold handle_tool_execution
  cases tc with
  | obj kvs => exact absurd rfl (hno kvs)
  | null => rfl
  | bool b => rfl
  | num n => rfl
  | str s => rfl
  | arr l => rfl

/-- A truthy object invocation whose `arguments` member is not an object
raises `TypeError` at the `**` unpacking, before any tool executes. -/
theorem generate_response_nonobj_arguments (chat : List Message → Except String String)
    (loads : String → Option Json) (q : String) (hist : Option String)
    (tools : Option (List Json)) (tm : ToolManager) (text : String)
    (kvs : List (String × Json)) (v : Json)
    (hfirst : chat (initMessages q hist) = Except.ok text)
    (hext : extract_tool_call loads text = some (Json.obj kvs))
    (hne : kvs ≠ [])
    (hargs : dictGet kvs "arguments" (Json.obj []) = v)
    (hno : ∀ a, v ≠ Json.obj a) :
    generate_response chat loads q hist tools (some tm) =
      TurnResult.mk (Except.error PyError.typeError) [] := by
  unfold generate_response
  simp only [hfirst, hext]
  rw [if_pos (truthy_obj kvs hne)]
  unfold handle_tool_execution
  cases v with
  | obj a => exact absurd rfl (hno a)
  | null => simp only [pyGet, hargs, pyKwargs]
  | bool b => simp only [pyGet, hargs, pyKwargs]
  | num n => simp only [pyGet, hargs, pyKwargs]
  | str s => simp only [pyGet, hargs, pyKwargs]
  | arr l => simp only [pyGet, hargs, pyKwargs]

/-! ### Claim theorems -/

/-- C1: for every first-completion text (any `chat` oracle) and every
available registry, one call to `generate_response` performs at most one tool
execution; and any execution it does perform is the single invocation
detected by `_extract_tool_call` in the first completion (the leftmost
delimited block), even when the text contains several invocation-looking
blocks. -/
theorem generate_response_at_most_one_tool_call
    (chat : List Message → Except String String) (loads : String → Option Json)
    (q : String) (hist : Option String) (tools : Option (List Json))
    (tmgr : Option ToolManager) :
    (generate_response chat loads q hist tools tmgr).toolCalls.length ≤ 1 ∧
    ((generate_response chat loads q hist tools tmgr).toolCalls = [] ∨
     ∃ text kvs akvs, chat (initMessages q hist) = Except.ok text ∧
       extract_tool_call loads text = some (Json.obj kvs) ∧
       dictGet kvs "arguments" (Json.obj []) = Json.obj akvs ∧
       (generate_response chat loads q hist tools tmgr).toolCalls =
         [(dictGet kvs "name" (Json.str ""), akvs)]) := by
  cases hc : chat (initMessages q hist) with
  | error e =>
    rw [generate_response_first_error chat loads q hist tools tmgr e hc]
    exact ⟨by simp, Or.inl rfl⟩
  | ok text =>
    cases hx : extract_tool_call loads text with
    | none =>
      rw [generate_response_no_detect chat loads q hist tools tmgr text hc hx]
      exact ⟨by simp, Or.inl rfl⟩
    | some tc =>
      cases tmgr with
      | none =>
        rw [generate_response_no_manager chat loads q hist tools text hc]
        exact ⟨by simp, Or.inl rfl⟩
      | some tm =>
        cases ht : tc.truthy with
        | false =>
          rw [generate_response_falsy chat loads q hist tools (some tm) text tc hc hx ht]
          exact ⟨by simp, Or.inl rfl⟩
        | true =>
          cases htc : tc with
          | obj kvs =>
            subst htc
            have hne : kvs ≠ [] := by
              intro hk
              subst hk
              simp [Json.truthy] at ht
            cases hargs : dictGet kvs "arguments" (Json.obj []) with
            | obj akvs =>
              rw [generate_response_tool_path chat loads q hist tools tm text kvs akvs
                hc hx hne hargs]
              refine ⟨by simp, Or.inr ⟨text, kvs, akvs, rfl, hx, hargs, rfl⟩⟩
            | null =>
              rw [generate_response_nonobj_arguments chat loads q hist tools tm text kvs
                Json.null hc hx hne hargs (by intro a h; cases h)]
              exact ⟨by simp, Or.inl rfl⟩
            | bool b =>
              rw [generate_response_nonobj_arguments chat loads q hist tools tm text kvs
                (Json.bool b) hc hx hne hargs (by intro a h; cases h)]
              exact ⟨by simp, Or.inl rfl⟩
            | num n =>
              rw [generate_response_nonobj_arguments chat loads q hist tools tm text kvs
                (Json.num n) hc hx hne hargs (by intro a h; cases h)]
              exact ⟨by simp, Or.inl rfl⟩
            | str s =>
              rw [generate_response_nonobj_arguments chat loads q hist tools tm text kvs
                (Json.str s) hc hx hne hargs (by intro a h; cases h)]
              exact ⟨by simp, Or.inl rfl⟩
            | arr l =>
              rw [generate_response_nonobj_arguments chat loads q hist tools tm text kvs
                (Json.arr l) hc hx hne hargs (by intro a h; cases h)]
              exact ⟨by simp, Or.inl rfl⟩
          | null =>
            subst htc
            rw [generate_response_nonobj_invocation chat loads q hist tools tm text
              Json.null hc hx ht (by intro kvs h; cases h)]
            exact ⟨by simp, Or.inl rfl⟩
          | bool b =>
            subst htc
            rw [generate_response_nonobj_invocation chat loads q hist tools tm text
              (Json.bool b) hc hx ht (by intro kvs h; cases h)]
            exact ⟨by simp, Or.inl rfl⟩
          | num n =>
            subst htc
            rw [generate_response_nonobj_invocation chat loads q hist tools tm text
              (Json.num n) hc hx ht (by intro kvs h; cases h)]
            exact ⟨by simp, Or.inl rfl⟩
          | str s =>
            subst htc
            rw [generate_response_nonobj_invocation chat loads q hist tools tm text
              (Json.str s) hc hx ht (by intro kvs h; cases h)]
            exact ⟨by simp, Or.inl rfl⟩
          | arr l =>
            subst htc
            rw [generate_response_nonobj_invocation chat loads q hist tools tm text
              (Json.arr l) hc hx ht (by intro kvs h; cases h)]
            exact ⟨by simp, Or.inl rfl⟩

/-- C2 (amended): when the first completion succeeds and the detected
invocation, if truthy, is a JSON object whose `arguments` member (defaulting
to the empty object) is itself an object, `generate_response` raises no
failure caused by the invocation content: a malformed block falls through to
the no-invocation answer path, an unknown name surfaces as the registry's
tool-not-found text, and the only failures that remain are backend
communication failures.  (Unamended, the claim is false: a truthy non-object
body such as a JSON array raises `AttributeError` — see the
counterexample.) -/
theorem generate_response_error_backend (chat : List Message → Except String String)
    (loads : String → Option Json) (q : String) (hist : Option String)
    (tools : Option (List Json)) (tmgr : Option ToolManager) (text : String)
    (e : PyError)
    (hfirst : chat (initMessages q hist) = Except.ok text)
    (hsafe : detectedSafe loads text = true)
    (herr : (generate_response chat loads q hist tools tmgr).outcome = Except.error e) :
    ∃ s, e = PyError.backend s := by
  cases hx : extract_tool_call loads text with
  | none =>
    rw [generate_response_no_detect chat loads q hist tools tmgr text hfirst hx] at herr
    exact absurd herr (by simp)
  | some tc =>
    cases tmgr with
    | none =>
      rw [generate_response_no_manager chat loads q hist tools text hfirst] at herr
      exact absurd herr (by simp)
    | some tm =>
      cases ht : tc.truthy with
      | false =>
        rw [generate_response_falsy chat loads q hist tools (some tm) text tc
          hfirst hx ht] at herr
        exact absurd herr (by simp)
      | true =>
        have hsi : safeInvocation tc = true := by
          unfold detectedSafe at hsafe
          rw [hx] at hsafe
          simpa [ht] using hsafe
        cases htc : tc with
        | obj kvs =>
          subst htc
          have hne : kvs ≠ [] := by
            intro hk
            subst hk
            simp [Json.truthy] at ht
          cases hargs : dictGet kvs "arguments" (Json.obj []) with
          | obj akvs =>
            rw [generate_response_tool_path chat loads q hist tools tm text kvs akvs
              hfirst hx hne hargs] at herr
            cases hc2 : chat (initMessages q hist ++
                [Message.mk "assistant" text,
                 Message.mk "user" (toolResultContent
                   (tm.execute_tool (dictGet kvs "name" (Json.str "")) akvs))]) with
            | error s =>
              rw [hc2] at herr
              simp only [TurnResult.mk.injEq] at herr
              refine ⟨s, ?_⟩
              have := herr
              simp at this
              exact this.symm
            | ok f =>
              rw [hc2] at herr
              exact absurd herr (by simp)
          | null => exact absurd hsi (by simp [safeInvocation, hargs])
          | bool b => exact absurd hsi (by simp [safeInvocation, hargs])
          | num n => exact absurd hsi (by simp [safeInvocation, hargs])
          | str s => exact absurd hsi (by simp [safeInvocation, hargs])
          | arr l => exact absurd hsi (by simp [safeInvocation, hargs])
        | null => subst htc; simp [Json.truthy] at ht
        | bool b =>
          subst htc
          exfalso
          unfold safeInvocation at hsi
          simp at hsi
        | num n =>
          subst htc
          exfalso
          unfold safeInvocation at hsi
          simp at hsi
        | str s =>
          subst htc
          exfalso
          unfold safeInvocation at hsi
          simp at hsi
        | arr l =>
          subst htc
          exfalso
          unfold safeInvocation at hsi
          simp at hsi

/-- C2 counterexample: a detected block whose body is the valid JSON array
`[1]` — truthy, but not an object — makes `generate_response` raise
`AttributeError` at `tool_call.get("name", "")`: the turn fails even though a
registry is available, so a valid-JSON non-object invocation is not swallowed
into a text path as the claim states. -/
theorem generate_response_raises_on_array_invocation :
    extract_tool_call loadsSample "<tool_call>[1]</tool_call>" =
      some (Json.arr [Json.num 1]) ∧
    generate_response (chatSample "<tool_call>[1]</tool_call>") loadsSample
        "What is Python?" none none (some tmSample) =
      TurnResult.mk (Except.error PyError.attributeError) [] := by
  exact ⟨rfl, rfl⟩

/-- C3: when the detected (leftmost) delimited block of the first completion
has a JSON body that fails to parse, extraction yields no invocation and the
turn returns the cleaned first-completion text with no tool execution — the
malformed block is not a failure. -/
theorem malformed_json_no_invocation (chat : List Message → Except String String)
    (loads : String → Option Json) (q : String) (hist : Option String)
    (tools : Option (List Json)) (tmgr : Option ToolManager) (text : String)
    (body : List Char)
    (hfirst : chat (initMessages q hist) = Except.ok text)
    (hblock : reSearchGroup text.data = some body)
    (hmal : loads (String.mk (pyStrip body)) = none) :
    extract_tool_call loads text = none ∧
    generate_response chat loads q hist tools tmgr =
      TurnResult.mk (Except.ok (clean_response text)) [] := by
  have hx : extract_tool_call loads text = none := by
    unfold extract_tool_call
    rw [hblock]
    exact hmal
  exact ⟨hx, generate_response_no_detect chat loads q hist tools tmgr text hfirst hx⟩

/-- C4: a backend communication failure during either completion request
propagates to the caller as a turn-level failure; the orchestrator never
catches it or converts it to answer text. -/
theorem backend_failure_propagates (chat : List Message → Except String String)
    (loads : String → Option Json) (q : String) (hist : Option String)
    (tools : Option (List Json)) (tmgr : Option ToolManager) :
    (∀ e : String, chat (initMessages q hist) = Except.error e →
      generate_response chat loads q hist tools tmgr =
        TurnResult.mk (Except.error (PyError.backend e)) []) ∧
    (∀ (tm : ToolManager) (text : String) (kvs akvs : List (String × Json))
        (e : String),
      tmgr = some tm →
      chat (initMessages q hist) = Except.ok text →
      extract_tool_call loads text = some (Json.obj kvs) →
      kvs ≠ [] →
      dictGet kvs "arguments" (Json.obj []) = Json.obj akvs →
      chat (initMessages q hist ++
        [Message.mk "assistant" text,
         Message.mk "user" (toolResultContent
           (tm.execute_tool (dictGet kvs "name" (Json.str "")) akvs))]) =
        Except.error e →
      generate_response chat loads q hist tools tmgr =
        TurnResult.mk (Except.error (PyError.backend e))
          [(dictGet kvs "name" (Json.str ""), akvs)]) := by
  constructor
  · intro e h
    exact generate_response_first_error chat loads q hist tools tmgr e h
  · intro tm text kvs akvs e htm hfirst hext hne hargs hsecond
    subst htm
    rw [generate_response_tool_path chat loads q hist tools tm text kvs akvs
      hfirst hext hne hargs]
    rw [hsecond]

/-- C5 (amended): on text assembled from zero or more well-formed invocation
blocks interleaved with non-block segments (segments and block bodies free of
both delimiters), `_clean_response` returns the trimmed concatenation of the
non-block segments; and when that concatenation itself contains no delimiter,
the cleaned text contains no block delimiters.  (Unamended, the
no-delimiter conjunct is false: delimiter-free segments can recombine into a
delimiter once the block between them is removed — see the
counterexample.) -/
theorem clean_response_on_segments (ps : List (List Char × List Char))
    (last : List Char)
    (hseg : ∀ pr ∈ ps, ¬ openTag <:+: pr.1 ∧ ¬ closeTag <:+: pr.1)
    (hbody : ∀ pr ∈ ps, ¬ openTag <:+: pr.2 ∧ ¬ closeTag <:+: pr.2)
    (hlast : ¬ openTag <:+: last ∧ ¬ closeTag <:+: last) :
    clean_response (String.mk (assemble ps last)) =
      String.mk (pyStrip (concatSegs ps last)) ∧
    (¬ openTag <:+: concatSegs ps last → ¬ closeTag <:+: concatSegs ps last →
      ¬ openTag <:+: (clean_response (String.mk (assemble ps last))).data ∧
      ¬ closeTag <:+: (clean_response (String.mk (assemble ps last))).data) := by
  have hrm : removeBlocks (assemble ps last) = concatSegs ps last :=
    removeBlocks_assemble ps last (fun pr h => (hseg pr h).1)
      (fun pr h => (hbody pr h).2) hlast.1
  have hclean : clean_response (String.mk (assemble ps last)) =
      String.mk (pyStrip (concatSegs ps last)) := by
    unfold clean_response
    have hdata : (String.mk (assemble ps last)).data = assemble ps last := rfl
    rw [hdata, hrm]
  refine ⟨hclean, fun h1 h2 => ?_⟩
  rw [hclean]
  exact ⟨not_infix_pyStrip _ _ h1, not_infix_pyStrip _ _ h2⟩

/-- C5 counterexample: the segments `"<tool_"` and `"call>x"` and the block
body `"b"` contain no delimiter, yet cleaning the assembled text yields
`"<tool_call>x"`, which contains the opening delimiter: removal of the block
lets the surrounding segments recombine into a delimiter, so "the cleaned
text contains no block delimiters" fails as universally stated (the cleaned
text still equals the trimmed concatenation of the segments). -/
theorem clean_response_spanning_counterexample :
    (¬ openTag <:+: "<tool_".data) ∧ (¬ closeTag <:+: "<tool_".data) ∧
    (¬ openTag <:+: "b".data) ∧ (¬ closeTag <:+: "b".data) ∧
    (¬ openTag <:+: "call>x".data) ∧ (¬ closeTag <:+: "call>x".data) ∧
    assemble [("<tool_".data, "b".data)] "call>x".data =
      "<tool_<tool_call>b</tool_call>call>x".data ∧
    clean_response "<tool_<tool_call>b</tool_call>call>x" = "<tool_call>x" ∧
    openTag <:+: ("<tool_call>x".data) := by
  refine ⟨by decide, by decide, by decide, by decide, by decide, by decide,
    by decide, rfl, by decide⟩

/-- C6: the `SearchResults` invariant — `empty(msg)` carries `error = msg`
with all three sequences empty; the non-error constructor produces
equal-length sequences; and `is_empty()` is true exactly when `documents` is
empty, for every instance. -/
theorem search_results_invariant (msg : String)
    (rows : List (String × List (String × Json) × Rat)) (r : SearchResults) :
    SearchResults.wf (SearchResults.empty msg) = true ∧
    (SearchResults.empty msg).error = some msg ∧
    SearchResults.wf (SearchResults.from_chroma rows) = true ∧
    (r.is_empty = true ↔ r.documents = []) := by
  refine ⟨rfl, rfl, ?_, ?_⟩
  · simp [SearchResults.wf, SearchResults.from_chroma]
  · simp [SearchResults.is_empty, List.isEmpty_iff]

/-- C7: the transport layer of `app.py` declares `sources` as plain strings
and forwards the RAG layer's sources verbatim; a string-typed source of the
shape the corpus produces carries no `"title"` member (the repository's own
test `test_execute_tracks_sources` requires one on every source), so the
transport cannot return the record-shaped `{title, link?}` sources the claim
describes. -/
theorem query_documents_sources_not_records :
    (query_documents
        (fun _ _ _ => ("Python is a programming language.",
          ["Test Course: Python Basics - Lesson 2"]))
        "s1" 0 (QueryRequest.mk "What is Python?" none none)).sources =
      ["Test Course: Python Basics - Lesson 2"] ∧
    ¬ ("title".data <:+: "Test Course: Python Basics - Lesson 2".data) := by
  exact ⟨rfl, by decide⟩

/-- C8: whenever an invocation (a truthy JSON object whose `arguments` member
is an object) is detected and a registry is available, the second completion
request's message list is exactly the first request's two messages followed
by the original completion as an assistant turn and a synthetic user turn
around the tool's string result with the fixed answer-concisely instruction;
the cleaned text of that second completion is the turn's answer. -/
theorem second_request_message_list (chat : List Message → Except String String)
    (loads : String → Option Json) (q : String) (hist : Option String)
    (tools : Option (List Json)) (tm : ToolManager) (text : String)
    (kvs akvs : List (String × Json))
    (hfirst : chat (initMessages q hist) = Except.ok text)
    (hext : extract_tool_call loads text = some (Json.obj kvs))
    (hne : kvs ≠ [])
    (hargs : dictGet kvs "arguments" (Json.obj []) = Json.obj akvs) :
    generate_response chat loads q hist tools (some tm) =
      TurnResult.mk
        (match chat (initMessages q hist ++
            [Message.mk "assistant" text,
             Message.mk "user" (toolResultContent
               (tm.execute_tool (dictGet kvs "name" (Json.str "")) akvs))]) with
         | Except.error e => Except.error (PyError.backend e)
         | Except.ok finalText => Except.ok (clean_response finalText))
        [(dictGet kvs "name" (Json.str ""), akvs)] :=
  generate_response_tool_path chat loads q hist tools tm text kvs akvs
    hfirst hext hne hargs

/-- C9 (amended): if the detected block parses to a truthy (nonempty) JSON
object that lacks `name` or lacks `arguments` — with its `arguments` member,
when present, an object — then `generate_response` still executes one
invocation: the name defaults to `""` and the arguments to the empty mapping,
and an absent name sends dispatch to the registry's tool-not-found text.
(Unamended, the claim is false: the empty object `{ }` lacks both keys but is
falsy, so it is treated as no invocation — see the counterexample.) -/
theorem missing_keys_default_dispatch (chat : List Message → Except String String)
    (loads : String → Option Json) (q : String) (hist : Option String)
    (tools : Option (List Json)) (tm : ToolManager) (text : String)
    (kvs akvs : List (String × Json))
    (hfirst : chat (initMessages q hist) = Except.ok text)
    (hext : extract_tool_call loads text = some (Json.obj kvs))
    (hne : kvs ≠ [])
    (hmiss : List.lookup "name" kvs = none ∨ List.lookup "arguments" kvs = none)
    (hargs : dictGet kvs "arguments" (Json.obj []) = Json.obj akvs) :
    (generate_response chat loads q hist tools (some tm)).toolCalls =
      [(dictGet kvs "name" (Json.str ""), akvs)] ∧
    (List.lookup "name" kvs = none → dictGet kvs "name" (Json.str "") = Json.str "") ∧
    (List.lookup "arguments" kvs = none → akvs = []) ∧
    (List.lookup "name" kvs = none → List.lookup "" tm.tools = none →
      tm.execute_tool (Json.str "") akvs = "Tool \x27\x27 not found") := by
  refine ⟨?_, ?_, ?_, ?_⟩
  · rw [generate_response_tool_path chat loads q hist tools tm text kvs akvs
      hfirst hext hne hargs]
  · intro h
    unfold dictGet
    rw [h]
  · intro h
    unfold dictGet at hargs
    rw [h] at hargs
    have : Json.obj ([] : List (String × Json)) = Json.obj akvs := hargs
    injection this with h2
    exact h2.symm
  · intro _ hreg
    simp only [ToolManager.execute_tool, hreg]
    rfl

/-- C9 counterexample: a detected block whose body is the empty JSON object —
which lacks both the `name` and the `arguments` key — is falsy, so
`generate_response` executes no invocation at all (the trace is empty and the
turn answers with the cleaned first completion), contrary to the claim that
such a block still reaches dispatch. -/
theorem empty_object_invocation_skipped :
    extract_tool_call loadsSample "<tool_call>\x7b\x7d</tool_call>" =
      some (Json.obj []) ∧
    List.lookup "name" ([] : List (String × Json)) = none ∧
    List.lookup "arguments" ([] : List (String × Json)) = none ∧
    generate_response (chatSample "<tool_call>\x7b\x7d</tool_call>") loadsSample
        "What is Python?" none none (some tmSample) =
      TurnResult.mk (Except.ok "") [] := by
  exact ⟨rfl, rfl, rfl, rfl⟩

/-- C10: `_handle_tool_execution` never mutates the caller's `messages` list:
the assistant and synthetic user turns are appended to `messages.copy()`, so
the caller-owned list is returned unchanged for every tool call, initial
response, message list and tool manager. -/
theorem handle_tool_execution_preserves_messages
    (chat : List Message → Except String String) (tool_call : Json)
    (initial_response : String) (messages : List Message) (tm : ToolManager) :
    (handle_tool_execution chat tool_call initial_response messages tm).2 =
      messages :=
  rfl

/-! ### Witness runs -/

/-- Witness for the amended C2 theorem: a concrete turn with a safe detected
invocation whose second completion request fails; the only failure surfaced
is the backend one. -/
theorem generate_response_error_backend_witness :
    chatTwoPhase toolCallReply (Except.error "reset")
        (initMessages "What is Python?" none) = Except.ok toolCallReply ∧
    detectedSafe loadsSample toolCallReply = true ∧
    (generate_response (chatTwoPhase toolCallReply (Except.error "reset"))
        loadsSample "What is Python?" none none (some tmSample)).outcome =
      Except.error (PyError.backend "reset") ∧
    ∃ s, PyError.backend "reset" = PyError.backend s :=
  ⟨rfl, rfl, rfl,
    generate_response_error_backend
      (chatTwoPhase toolCallReply (Except.error "reset")) loadsSample
      "What is Python?" none none (some tmSample) toolCallReply
      (PyError.backend "reset") rfl rfl rfl⟩

/-- Witness for the C3 theorem: a concrete completion whose detected block
holds malformed JSON is answered by the cleaned first completion with no tool
execution. -/
theorem malformed_json_no_invocation_witness :
    chatSample badJsonReply (initMessages "What is Python?" none) =
      Except.ok badJsonReply ∧
    reSearchGroup badJsonReply.data = some "\x7bbad\x7d".data ∧
    loadsSample (String.mk (pyStrip "\x7bbad\x7d".data)) = none ∧
    (extract_tool_call loadsSample badJsonReply = none ∧
     generate_response (chatSample badJsonReply) loadsSample "What is Python?"
         none none (some tmSample) =
       TurnResult.mk (Except.ok (clean_response badJsonReply)) []) :=
  ⟨rfl, rfl, rfl,
    malformed_json_no_invocation (chatSample badJsonReply) loadsSample
      "What is Python?" none none (some tmSample) badJsonReply
      "\x7bbad\x7d".data rfl rfl rfl⟩

/-- Witness for the C4 theorem: concrete turns in which the first and the
second completion request fail, each surfacing as a turn-level backend
failure. -/
theorem backend_failure_propagates_witness :
    chatFail "down" (initMessages "What is Python?" none) = Except.error "down" ∧
    generate_response (chatFail "down") loadsSample "What is Python?" none none
        (some tmSample) =
      TurnResult.mk (Except.error (PyError.backend "down")) [] ∧
    generate_response (chatTwoPhase toolCallReply (Except.error "reset2"))
        loadsSample "What is Python?" none none (some tmSample) =
      TurnResult.mk (Except.error (PyError.backend "reset2"))
        [(Json.str "search_course_content", [("query", Json.str "API")])] :=
  ⟨rfl,
    (backend_failure_propagates (chatFail "down") loadsSample "What is Python?"
      none none (some tmSample)).1 "down" rfl,
    (backend_failure_propagates (chatTwoPhase toolCallReply (Except.error "reset2"))
      loadsSample "What is Python?" none none (some tmSample)).2 tmSample
      toolCallReply
      [("name", Json.str "search_course_content"),
       ("arguments", Json.obj [("query", Json.str "API")])]
      [("query", Json.str "API")] "reset2" rfl rfl rfl (List.cons_ne_nil _ _)
      rfl rfl⟩

/-- Witness for the amended C5 theorem: a concrete segmented text with one
block. -/
theorem clean_response_on_segments_witness :
    (∀ pr ∈ [("a ".data, "b".data)], ¬ openTag <:+: pr.1 ∧ ¬ closeTag <:+: pr.1) ∧
    (∀ pr ∈ [("a ".data, "b".data)], ¬ openTag <:+: pr.2 ∧ ¬ closeTag <:+: pr.2) ∧
    (¬ openTag <:+: " c".data ∧ ¬ closeTag <:+: " c".data) ∧
    (clean_response (String.mk (assemble [("a ".data, "b".data)] " c".data)) =
        String.mk (pyStrip (concatSegs [("a ".data, "b".data)] " c".data)) ∧
      (¬ openTag <:+: concatSegs [("a ".data, "b".data)] " c".data →
       ¬ closeTag <:+: concatSegs [("a ".data, "b".data)] " c".data →
        ¬ openTag <:+:
            (clean_response (String.mk (assemble [("a ".data, "b".data)] " c".data))).data ∧
        ¬ closeTag <:+:
            (clean_response (String.mk (assemble [("a ".data, "b".data)] " c".data))).data)) :=
  ⟨by decide, by decide, by decide,
    clean_response_on_segments [("a ".data, "b".data)] " c".data
      (by decide) (by decide) (by decide)⟩

/-- Witness for the C8 theorem: a concrete turn in which the invocation is
executed and the cleaned second completion is the answer. -/
theorem second_request_message_list_witness :
    chatTwoPhase toolCallReply (Except.ok "Python answers.")
        (initMessages "What is Python?" none) = Except.ok toolCallReply ∧
    extract_tool_call loadsSample toolCallReply =
      some (Json.obj [("name", Json.str "search_course_content"),
        ("arguments", Json.obj [("query", Json.str "API")])]) ∧
    generate_response (chatTwoPhase toolCallReply (Except.ok "Python answers."))
        loadsSample "What is Python?" none none (some tmSample) =
      TurnResult.mk (Except.ok "Python answers.")
        [(Json.str "search_course_content", [("query", Json.str "API")])] :=
  ⟨rfl, rfl,
    second_request_message_list
      (chatTwoPhase toolCallReply (Except.ok "Python answers.")) loadsSample
      "What is Python?" none none tmSample toolCallReply
      [("name", Json.str "search_course_content"),
       ("arguments", Json.obj [("query", Json.str "API")])]
      [("query", Json.str "API")] rfl rfl (List.cons_ne_nil _ _) rfl⟩

/-- Witness for the amended C9 theorem: a concrete block lacking the `name`
key still executes one invocation, with the empty name falling to the
registry's tool-not-found text. -/
theorem missing_keys_default_dispatch_witness :
    extract_tool_call loadsSample missingNameReply =
      some (Json.obj [("arguments", Json.obj [])]) ∧
    List.lookup "name" [("arguments", Json.obj ([] : List (String × Json)))] =
      none ∧
    ((generate_response (chatTwoPhase missingNameReply (Except.ok "No such tool."))
          loadsSample "What is Python?" none none (some tmSample)).toolCalls =
        [(Json.str "", [])] ∧
      (List.lookup "name" [("arguments", Json.obj ([] : List (String × Json)))] =
          none →
        dictGet [("arguments", Json.obj [])] "name" (Json.str "") = Json.str "") ∧
      (List.lookup "arguments"
          [("arguments", Json.obj ([] : List (String × Json)))] = none →
        ([] : List (String × Json)) = []) ∧
      (List.lookup "name" [("arguments", Json.obj ([] : List (String × Json)))] =
          none →
        List.lookup "" tmSample.tools = none →
        tmSample.execute_tool (Json.str "") [] = "Tool \x27\x27 not found")) :=
  ⟨rfl, rfl,
    missing_keys_default_dispatch
      (chatTwoPhase missingNameReply (Except.ok "No such tool.")) loadsSample
      "What is Python?" none none tmSample missingNameReply
      [("arguments", Json.obj [])] [] rfl rfl (List.cons_ne_nil _ _)
      (Or.inl rfl) rfl⟩
